import Mathlib

/-!
Verification development for the WebCableDiag resolution/diagnostics core
(`src/app.py`).  The Python functions are shallowly embedded: text is
`String`/`List Char`, Python dicts are functions `String → Option String`,
remote command round trips are oracle parameters, the `cachetools.TTLCache`
instances are explicit `String → Option _` maps threaded through each call
together with a `Bool` flag recording whether the remote session was opened
on that call (within one TTL window; expiry is not modelled since no claim
mentions it).  Exceptions (`ValueError`, netmiko failures, `AttributeError`)
are modelled with `Option`/`Except`.
-/

deriving instance DecidableEq for Except

/-- Whitespace class used by Python's `\s` (ASCII range) and `str.strip` /
`str.split`, restricted to the ASCII whitespace characters. -/
def isWs (c : Char) : Bool :=
  c = ' ' || c = '\t' || c = '\n' || c = '\r' || c = '\x0b' || c = '\x0c'

/-- ASCII lowercasing, as Python `str.lower` acts on ASCII letters (the
inventory names and device output handled by the program are ASCII). -/
def lowerChar (c : Char) : Char :=
  if 65 ≤ c.toNat ∧ c.toNat ≤ 90 then Char.ofNat (c.toNat + 32) else c

/-- Python `str.lower` on a whole string (ASCII letters). -/
def pylower (s : String) : String := String.mk (s.data.map lowerChar)

/-- The decimal-digit range `0-9` of the regex class in `normalize_mac`. -/
def digitChars : List Char := ['0','1','2','3','4','5','6','7','8','9']

/-- The lowercase range `a-f` of the regex class in `normalize_mac`. -/
def hexLowerLetters : List Char := ['a','b','c','d','e','f']

/-- The uppercase range `A-F` of the regex class in `normalize_mac`. -/
def hexUpperLetters : List Char := ['A','B','C','D','E','F']

/-- The character class kept by `re.sub(r"[^0-9a-fA-F]", "", mac)` in
`normalize_mac` (`src/app.py:80`), assembled from its three ranges. -/
def hexChars : List Char := digitChars ++ hexLowerLetters ++ hexUpperLetters

/-- Membership in the regex class `[0-9a-fA-F]`. -/
def isHexChar (c : Char) : Bool := decide (c ∈ hexChars)

/-- Python `str.lower` as it acts inside `normalize_mac`: every character it
is applied to is already a hex digit (all others were removed by the
preceding `re.sub`), so only `A`–`F` change. -/
def hexLower (c : Char) : Char :=
  if c = 'A' then 'a' else if c = 'B' then 'b' else if c = 'C' then 'c'
  else if c = 'D' then 'd' else if c = 'E' then 'e' else if c = 'F' then 'f'
  else c

/-- Lowercase hex digits, the alphabet of a normalized MAC group. -/
def isLowerHexChar (c : Char) : Bool :=
  decide (c ∈ digitChars ++ hexLowerLetters)

/-- The slicing `s[0:4] + "." + s[4:8] + "." + s[8:12]` from
`normalize_mac` (`src/app.py:83`), on a 12-character digit list. -/
def formatChars (s : List Char) : List Char :=
  s.take 4 ++ '.' :: ((s.drop 4).take 4 ++ '.' :: (s.drop 8).take 4)

/-- Embedding of `normalize_mac` (`src/app.py:79-83`).  The `ValueError`
raised on a hex-digit count other than 12 is modelled as `none`. -/
def normalize_mac (mac : String) : Option String :=
  let s := (mac.data.filter isHexChar).map hexLower
  if s.length = 12 then some (String.mk (formatChars s)) else none

/-- Canonical MAC shape stated by the spec: 14 characters, dots at offsets
4 and 9, and exactly 12 non-dot characters, all lowercase hex. -/
def isCanonicalMac (s : String) : Bool :=
  decide (s.data.length = 14) &&
  decide ((s.data.drop 4).take 1 = ['.']) &&
  decide ((s.data.drop 9).take 1 = ['.']) &&
  (s.data.filter (fun c => c != '.')).all isLowerHexChar &&
  decide ((s.data.filter (fun c => c != '.')).length = 12)

example : normalize_mac "AA:BB:CC:DD:EE:FF" = some "aabb.ccdd.eeff" := by decide
example : normalize_mac "aabb.ccdd.eeff" = some "aabb.ccdd.eeff" := by decide
example : normalize_mac "aabbccddeeff0" = none := by decide
example : isCanonicalMac "aabb.ccdd.eeff" = true := by decide
example : isCanonicalMac "aabb.ccdd.eefg" = false := by decide

/-- Python's substring test `needle in hay` on character lists. -/
def listContains (n : List Char) : List Char → Bool
  | [] => decide (n = [])
  | c :: t => n.isPrefixOf (c :: t) || listContains n t

/-- Worker for `splitlines`: accumulates the current line (reversed). -/
def splitlinesAux : List Char → List Char → List (List Char)
  | [], acc => if acc = [] then [] else [acc.reverse]
  | c :: t, acc =>
    if c = '\n' then acc.reverse :: splitlinesAux t []
    else splitlinesAux t (c :: acc)

/-- Python `str.splitlines` for LF-terminated text (the only terminator in
the device output the program handles; a trailing newline yields no empty
final line, and the empty string yields no lines). -/
def splitlines (s : List Char) : List (List Char) := splitlinesAux s []

/-- Python `str.strip()`: remove leading and trailing whitespace. -/
def pstrip (s : List Char) : List Char :=
  ((s.dropWhile isWs).reverse.dropWhile isWs).reverse

/-- Worker for `pysplit`: accumulates the current token (reversed). -/
def pysplitAux : List Char → List Char → List (List Char)
  | [], acc => if acc = [] then [] else [acc.reverse]
  | c :: t, acc =>
    if isWs c then
      if acc = [] then pysplitAux t [] else acc.reverse :: pysplitAux t []
    else pysplitAux t (c :: acc)

/-- Python `str.split()` with no argument: split on runs of whitespace,
dropping empty tokens. -/
def pysplit (s : List Char) : List (List Char) := pysplitAux s []

/-- Python `"|".join(parts)`. -/
def joinBar : List String → String
  | [] => ""
  | [p] => p
  | p :: q :: rest => p ++ "|" ++ joinBar (q :: rest)

/-- Embedding of `cache_key` (`src/app.py:76-77`):
`prefix + ":" + "|".join(parts)`. -/
def cache_key (pfx : String) (parts : List String) : String :=
  pfx ++ ":" ++ joinBar parts

/-- Storing one entry in a TTLCache, modelled as a map update. -/
def updateCache {α : Type} (cache : String → Option α) (key : String) (v : α) :
    String → Option α :=
  fun j => if j = key then some v else cache j

example : listContains "bc".data "abcd".data = true := by decide
example : listContains "bd".data "abcd".data = false := by decide
example : splitlines "a\nb\n".data = ["a".data, "b".data] := by decide
example : splitlines "".data = [] := by decide
example : splitlines "\n\n".data = [[], []] := by decide
example : pstrip "  a b \t".data = "a b".data := by decide
example : pysplit " 10  aabb  Gi1 ".data = ["10".data, "aabb".data, "Gi1".data] := by decide
example : cache_key "mac" ["s1", "aa"] = "mac:s1|aa" := by decide

/-- Case-insensitive prefix test, the Boolean content of an anchored
`re.match` with `re.IGNORECASE` against a literal alternative. -/
def ciIsPrefixOf : List Char → List Char → Bool
  | [], _ => true
  | _ :: _, [] => false
  | a :: pt, b :: ct => (lowerChar a = lowerChar b) && ciIsPrefixOf pt ct

/-- Interface-name prefixes from the alternation in
`src/app.py:134`: `^(Gi|Fa|Te|Tw|Et|Ethernet|Po|Port-channel|Eth)\S*`. -/
def ifacePrefixAlternatives : List String :=
  ["Gi", "Fa", "Te", "Tw", "Et", "Ethernet", "Po", "Port-channel", "Eth"]

/-- Boolean content of `re.match(r"^[A-Za-z]+[0-9/]+$", token)`: one or more
ASCII letters followed by one or more digits-or-slashes, to the end. -/
def genericIface (tok : List Char) : Bool :=
  let ls := tok.takeWhile Char.isAlpha
  decide (ls ≠ []) &&
    (let rest := tok.drop ls.length
     decide (rest ≠ []) && rest.all (fun c => c.isDigit || c = '/'))

/-- Token test from the scan loop in `find_mac_on_central_for_site`
(`src/app.py:134`): known interface prefix (case-insensitive) or the
generic letters-then-digits-and-slashes shape. -/
def tokenMatches (tok : List Char) : Bool :=
  ifacePrefixAlternatives.any (fun p => ciIsPrefixOf p.data tok) || genericIface tok

/-- The per-line loop of `src/app.py:130-138`: on each line containing the
normalized MAC, scan its whitespace tokens in reverse and stop at the first
line yielding a matching token. -/
def findIfaceLines (mQ : List Char) : List (List Char) → Option (List Char)
  | [] => none
  | l :: ls =>
    if listContains mQ l then
      match (pysplit l).reverse.find? tokenMatches with
      | some t => some t
      | none => findIfaceLines mQ ls
    else findIfaceLines mQ ls

/-- MAC-table scan of `find_mac_on_central_for_site` (`src/app.py:129-138`)
as a pure function of the normalized MAC and the raw command output. -/
def find_interface_in_mac_table (m out : String) : Option String :=
  (findIfaceLines m.data (splitlines out.data)).map String.mk

/-- Spec-side rendering of the MAC-table parser, following the spec's
wording: examine each line containing the normalized MAC, scan that line's
tokens in reverse order, and return the first token matching either
pattern; absence of any match yields no interface. -/
def spec_mac_table_scan (m out : String) : Option String :=
  (((splitlines out.data).filter (fun l => listContains m.data l)).findSome?
    (fun l => (pysplit l).reverse.find? tokenMatches)).map String.mk

example :
    find_interface_in_mac_table "aabb.ccdd.eeff"
      " 10    aabb.ccdd.eeff    DYNAMIC  Gi1/0/24" = some "Gi1/0/24" := by decide
example :
    find_interface_in_mac_table "aabb.ccdd.eeff"
      "Vlan Mac Type Ports\n 10 aabb.ccdd.eeff DYNAMIC Gi1/0/24\nTotal: 1" =
      some "Gi1/0/24" := by decide
example : find_interface_in_mac_table "aabb.ccdd.eeff" "no such mac" = none := by decide
example : tokenMatches "po12".data = true := by decide
example : tokenMatches "DYNAMIC".data = false := by decide
example : tokenMatches "Vl99".data = true := by decide

/-- Uppercasing of the captured pair letter, `m.group(1).upper()`
(`src/app.py:175`); the capture class `[A-D]` with `re.IGNORECASE` admits
only these eight characters. -/
def pairUpper (c : Char) : Char :=
  if c = 'a' then 'A' else if c = 'b' then 'B' else if c = 'c' then 'C'
  else if c = 'd' then 'D' else c

/-- Character class `[A-D]` under `re.IGNORECASE`. -/
def isPairLetter (c : Char) : Bool :=
  c = 'A' || c = 'B' || c = 'C' || c = 'D' || c = 'a' || c = 'b' || c = 'c' || c = 'd'

/-- Attempt of `Pair\s+([A-D])[:\-\s]*(.*)` at a fixed position: the literal
`Pair` (case-insensitive), at least one whitespace, a pair letter, then the
greedy `[:\-\s]*` skip; returns the uppercased letter and the `(.*)`
remainder. -/
def matchPairTail (cs : List Char) : Option (Char × List Char) :=
  match cs with
  | c1 :: c2 :: c3 :: c4 :: rest =>
    if (c1 = 'p' || c1 = 'P') && (c2 = 'a' || c2 = 'A') &&
       (c3 = 'i' || c3 = 'I') && (c4 = 'r' || c4 = 'R') then
      let ws := rest.takeWhile isWs
      if ws = [] then none
      else
        match rest.drop ws.length with
        | d :: rest2 =>
          if isPairLetter d then
            some (pairUpper d, rest2.dropWhile (fun c => c = ':' || c = '-' || isWs c))
          else none
        | [] => none
    else none
  | _ => none

/-- Backtracking of the greedy `.{0,25}` window in `pair_re`
(`src/app.py:169`): the engine prefers the largest skip, so try dropping
`k` characters for `k` from the bound down to zero. -/
def pairMatchGo : Nat → List Char → Option (Char × List Char)
  | 0, line => matchPairTail line
  | k + 1, line =>
    match matchPairTail (line.drop (k + 1)) with
    | some r => some r
    | none => pairMatchGo k line

/-- Anchored match of `pair_re = .{0,25}Pair\s+([A-D])[:\-\s]*(.*)` with
`re.IGNORECASE` against one (newline-free) line. -/
def pairMatch (line : List Char) : Option (Char × List Char) :=
  pairMatchGo 25 line

/-- Attempt of `len_re = (\d+(\.\d+)?)(\s*\+\/\-\s*\d*)?\s*(m|meters|meter|m\.)`
at a fixed position, returning capture group 1.  The optional margin group
requires a contiguous plus-slash-minus; when the whitespace after the
number is followed by a `+` that does not continue that way, every backtracking
alternative fails (the unit `m` cannot appear where the `+` stands), so the
position fails. -/
def lenMatchAt (cs : List Char) : Option (List Char) :=
  let ds := cs.takeWhile Char.isDigit
  if ds = [] then none
  else
    let r1 := cs.drop ds.length
    let fr :=
      match r1 with
      | '.' :: t =>
        let fd := t.takeWhile Char.isDigit
        if fd = [] then (([] : List Char), r1) else ('.' :: fd, t.drop fd.length)
      | _ => ([], r1)
    let r3 := fr.2.dropWhile isWs
    let unitHead : List Char → Bool := fun l =>
      match l with
      | c :: _ => c = 'm' || c = 'M'
      | [] => false
    match r3 with
    | '+' :: '/' :: '-' :: t =>
      let t3 := ((t.dropWhile isWs).dropWhile Char.isDigit).dropWhile isWs
      if unitHead t3 then some (ds ++ fr.1) else none
    | _ => if unitHead r3 then some (ds ++ fr.1) else none

/-- Leftmost `re.search` of `len_re`, returning capture group 1. -/
def lenSearch : List Char → Option (List Char)
  | [] => none
  | c :: t =>
    match lenMatchAt (c :: t) with
    | some g => some g
    | none => lenSearch t

/-- Alternatives of `status_re` (`src/app.py:171`), in alternation order;
each is lowercase, so the lowercased matched text equals the alternative. -/
def statusAlternatives : List String :=
  ["open", "short", "ok", "normal", "fault", "not supported", "unsupported", "no tdr"]

/-- Attempt of `status_re` at a fixed position: the first alternative that
matches case-insensitively. -/
def statusSearchAt (cs : List Char) : Option String :=
  statusAlternatives.find? (fun alt => ciIsPrefixOf alt.data cs)

/-- Leftmost `re.search` of `status_re`, returning the lowercased match. -/
def statusSearch : List Char → Option String
  | [] => none
  | c :: t =>
    match statusSearchAt (c :: t) with
    | some r => some r
    | none => statusSearch t

/-- One entry of `parsed["pairs"]` built by `parse_tdr_output`
(`src/app.py:185-201`); `pair` is `none` for the fallback entries. -/
structure TdrPair where
  pair : Option String
  status : Option String
  length_m : Option String
  details : String
deriving DecidableEq

/-- Return value of `parse_tdr_output` (`src/app.py:166-204`): the raw
text, the ordered pair entries, and the optional "no parsed data" note. -/
structure TdrParsed where
  raw : String
  pairs : List TdrPair
  note : Option String
deriving DecidableEq

/-- Embedding of `parse_tdr_output` (`src/app.py:166-204`). -/
def parse_tdr_output (out : String) : TdrParsed :=
  let lines := ((splitlines out.data).map pstrip).filter (fun l => l ≠ [])
  let pairEntries := lines.filterMap (fun line =>
    match pairMatch line with
    | some pg =>
      let rest := pstrip pg.2
      some { pair := some (String.mk [pg.1])
             status := statusSearch rest
             length_m := (lenSearch rest).map String.mk
             details := String.mk rest }
    | none => none)
  if pairEntries ≠ [] then { raw := out, pairs := pairEntries, note := none }
  else
    let fallback := lines.filterMap (fun line =>
      (lenSearch line).map (fun g =>
        { pair := none, status := none, length_m := some (String.mk g)
          details := String.mk line }))
    if fallback ≠ [] then { raw := out, pairs := fallback, note := none }
    else { raw := out, pairs := []
           note := some "No parsed pair data; raw output provided" }

example : lenSearch "Open 3 +/- 2 m".data = some "3".data := by decide
example : lenSearch "Open 3 + /- 2 m".data = some "2".data := by decide
example : lenSearch "Normal".data = none := by decide
example : lenSearch "12.5 meters".data = some "12.5".data := by decide
example : statusSearch "Open 3 m".data = some "open" := by decide
example : statusSearch "Normal".data = some "normal" := by decide
example : pairMatch "Pair A: Open 3 m".data = some ('A', "Open 3 m".data) := by decide
example :
    parse_tdr_output "Pair A: Open 3 + /- 2 m\nPair B: Normal" =
      { raw := "Pair A: Open 3 + /- 2 m\nPair B: Normal"
        pairs := [{ pair := some "A", status := some "open", length_m := some "2"
                    details := "Open 3 + /- 2 m" },
                  { pair := some "B", status := some "normal", length_m := none
                    details := "Normal" }]
        note := none } := by decide
example :
    parse_tdr_output "nothing here" =
      { raw := "nothing here", pairs := []
        note := some "No parsed pair data; raw output provided" } := by decide

/-- Value stored in `tdr_cache` and returned by `tdr_single_interface`:
either a parsed record or the error-shaped dict
`{"raw": ..., "error": ...}` (`src/app.py:223`, `src/app.py:248`). -/
inductive TdrValue where
  | parsedVal (p : TdrParsed)
  | errorVal (raw msg : String)
deriving DecidableEq

/-- Embedding of `tdr_single_interface` (`src/app.py:206-237`).  The remote
session is replaced by the two response texts it would yield (`startOut`
for the `test cable-diagnostics tdr` command, `resultOut` for the `show`
command); the returned `Bool` records whether the call opened a session
(i.e. missed the cache) within the current TTL window. -/
def tdr_single_interface (host iface startOut resultOut : String)
    (cache : String → Option TdrValue) :
    TdrValue × (String → Option TdrValue) × Bool :=
  let key := cache_key "tdr" [host, iface]
  match cache key with
  | some v => (v, cache, false)
  | none =>
    if listContains "Invalid input".data startOut.data ||
       listContains "Unknown command".data startOut.data ||
       listContains "Command not found".data startOut.data then
      let parsed := TdrValue.errorVal startOut "No valid TDR command on device"
      (parsed, updateCache cache key parsed, true)
    else
      let parsed := TdrValue.parsedVal (parse_tdr_output resultOut)
      (parsed, updateCache cache key parsed, true)

/-- One row of the `use_textfsm=True` output of `show interfaces status`
consumed by `get_interfaces_for_device` via `entry.get(...)`. -/
structure FsmEntry where
  port : Option String
  name : Option String
  status : Option String
  type : Option String
deriving DecidableEq

/-- One element of the interface list built at `src/app.py:100-108`. -/
structure IfRec where
  name : Option String
  description : Option String
  status : Option String
  type : Option String
deriving DecidableEq

/-- Embedding of `get_interfaces_for_device` (`src/app.py:86-114`), with
the remote round trip replaced by its structured output `out` and the
session-opened flag returned as for `tdr_single_interface`. -/
def get_interfaces_for_device (host : String) (out : List FsmEntry)
    (cache : String → Option (List IfRec)) :
    List IfRec × (String → Option (List IfRec)) × Bool :=
  let key := cache_key "iflist" [host]
  match cache key with
  | some v => (v, cache, false)
  | none =>
    let interfaces := out.map (fun e =>
      { name := e.port, description := e.name, status := e.status, type := e.type })
    if interfaces ≠ [] then (interfaces, updateCache cache key interfaces, true)
    else (interfaces, cache, true)

/-- Result dict of `find_mac_on_central_for_site` (`src/app.py:139`). -/
structure MacResult where
  mac : String
  raw : String
  interface : Option String
  site : String
deriving DecidableEq

/-- Embedding of `find_mac_on_central_for_site` (`src/app.py:116-143`).
`siteFound` stands for `get_site_by_name(site_name)` being non-null, `out`
for the text of the `show mac address-table` command on the central switch;
`.error` models the two `ValueError`s.  The `Bool` flag again records
whether the remote session was opened. -/
def find_mac_on_central_for_site (site_name mac : String) (siteFound : Bool)
    (out : String) (cache : String → Option MacResult) :
    Except String (MacResult × (String → Option MacResult) × Bool) :=
  let key := cache_key "mac" [site_name, mac]
  match cache key with
  | some v => .ok (v, cache, false)
  | none =>
    if ¬siteFound then .error "Site nicht gefunden"
    else
      match normalize_mac mac with
      | none => .error "Ungültige MAC Adresse"
      | some m =>
        let result : MacResult :=
          { mac := m, raw := out, interface := find_interface_in_mac_table m out
            site := site_name }
        .ok (result, updateCache cache key result, true)

/-- The key set `NETMIKO_ALLOWED_KEYS` (`src/app.py:17-21`). -/
def NETMIKO_ALLOWED_KEYS : List String :=
  ["device_type", "host", "username", "password", "secret", "allow_agent",
   "port", "verbose", "session_log", "timeout", "conn_timeout",
   "fast_cli", "global_delay_factor", "blocking_timeout", "ssh_config_file"]

/-- Embedding of `sanitize_device_for_netmiko` (`src/app.py:23-32`); a
Python dict is a finite map `String → Option String` (values opaque). -/
def sanitize_device_for_netmiko (device : String → Option String) :
    String → Option String :=
  fun k =>
    let sanitized : String → Option String :=
      fun j => if j ∈ NETMIKO_ALLOWED_KEYS then device j else none
    if k = "host" ∧ sanitized "host" = none then
      match sanitized k with
      | some v => some v
      | none => device "ip"
    else sanitized k

/-- The merge `{**defaults, **device}` from `ssh_connect`
(`src/app.py:72`): device-specific values win. -/
def merge_params (defaults device : String → Option String) :
    String → Option String :=
  fun k =>
    match device k with
    | some v => some v
    | none => defaults k

/-- Parameter set handed to `ConnectHandler` by `ssh_connect`
(`src/app.py:69-74`). -/
def ssh_connect_params (defaults device : String → Option String) :
    String → Option String :=
  sanitize_device_for_netmiko (merge_params defaults device)

/-- Neighbor-discovery result dict (`src/app.py:162`), restricted to the
two fields the mapping step reads. -/
structure NeighborResult where
  cdp_name : Option String
  cdp_ip : Option String
deriving DecidableEq

/-- Access-switch inventory record, restricted to the two fields the
mapping step reads; `none` models a missing key (`sw.get(...)` is `None`). -/
structure AccessSwitch where
  name : Option String
  host : Option String
deriving DecidableEq

/-- Python truthiness of `d.get(...)` for a string field: present and
non-empty. -/
def truthyStr : Option String → Bool
  | none => false
  | some s => decide (s ≠ "")

/-- Embedding of the inventory-mapping loop of `search_mac_sitewide`
(`src/app.py:338-345`).  For each switch, in inventory order: the
address test, then the name test with Python's short-circuit `or`;
`sw.get("name").lower()` or `sw.get("host").lower()` on a missing field
raises `AttributeError`, modelled as `.error`. -/
def mapped_switch (nb : NeighborResult) :
    List AccessSwitch → Except String (Option AccessSwitch)
  | [] => .ok none
  | sw :: rest =>
    if truthyStr nb.cdp_ip && (sw.host == nb.cdp_ip) then .ok (some sw)
    else
      match nb.cdp_name with
      | none => mapped_switch nb rest
      | some cn =>
        if cn = "" then mapped_switch nb rest
        else
          match sw.name with
          | none => .error "AttributeError: NoneType has no attribute lower"
          | some nm =>
            if pylower nm = pylower cn then .ok (some sw)
            else
              match sw.host with
              | none => .error "AttributeError: NoneType has no attribute lower"
              | some h =>
                if pylower h = pylower cn then .ok (some sw)
                else mapped_switch nb rest

/-- Per-switch match test of the loop in `src/app.py:338-345`, for records
whose `name` and `host` are present (the only crash-free case). -/
def swMatches (nb : NeighborResult) (sw : AccessSwitch) : Bool :=
  (truthyStr nb.cdp_ip && (sw.host == nb.cdp_ip)) ||
    (match nb.cdp_name, sw.name, sw.host with
     | some cn, some nm, some h =>
       !(cn == "") && ((pylower nm == pylower cn) || (pylower h == pylower cn))
     | _, _, _ => false)

/-- Value delivered for one interface by the dispatcher: `fut.result()` on
success, the error-shaped dict `{"raw": "", "error": str(e)}` when the
worker raised (`src/app.py:245-248`). -/
def tdr_future_result (op : String → Except String TdrValue) (iface : String) :
    TdrValue :=
  match op iface with
  | .ok r => r
  | .error e => TdrValue.errorVal "" e

/-- Embedding of `tdr_on_switch_async` (`src/app.py:239-250`).  `op` models
`tdr_single_interface` applied to the fixed device, with worker exceptions
as `.error`; since each future's value is a function of its interface
alone, the keyed result dict is independent of `as_completed` order, and
is modelled directly as the map built by the collection loop. -/
def tdr_on_switch_async (op : String → Except String TdrValue)
    (interfaces : List String) : String → Option TdrValue :=
  interfaces.foldl
    (fun results iface =>
      fun k => if k = iface then some (tdr_future_result op iface) else results k)
    (fun _ => none)

example :
    (tdr_single_interface "h" "Gi1/0/1" "Invalid input detected" ""
      (fun _ => none)).1 =
      TdrValue.errorVal "Invalid input detected" "No valid TDR command on device" := by
  decide
example :
    mapped_switch { cdp_name := some "x", cdp_ip := none }
      [{ name := none, host := some "h" }] =
      .error "AttributeError: NoneType has no attribute lower" := by decide
example :
    mapped_switch { cdp_name := some "sw-access-3", cdp_ip := some "10.0.0.5" }
      [{ name := some "SW-Access-3", host := some "10.0.0.9" },
       { name := some "other", host := some "10.0.0.5" }] =
      .ok (some { name := some "SW-Access-3", host := some "10.0.0.9" }) := by decide

lemma mem_of_isHexChar {c : Char} (h : isHexChar c = true) :
    c ∈ digitChars ∨ c ∈ hexLowerLetters ∨ c ∈ hexUpperLetters := by
  simpa [isHexChar, hexChars, List.mem_append, or_assoc] using h

lemma hexLower_isHexChar {c : Char} (h : isHexChar c = true) :
    isHexChar (hexLower c) = true := by
  rcases mem_of_isHexChar h with hm | hm | hm <;> fin_cases hm <;> decide

lemma hexLower_isLower {c : Char} (h : isHexChar c = true) :
    isLowerHexChar (hexLower c) = true := by
  rcases mem_of_isHexChar h with hm | hm | hm <;> fin_cases hm <;> decide

lemma hexLower_idem {c : Char} (h : isHexChar c = true) :
    hexLower (hexLower c) = hexLower c := by
  rcases mem_of_isHexChar h with hm | hm | hm <;> fin_cases hm <;> decide

lemma isLowerHexChar_ne_dot {c : Char} (h : isLowerHexChar c = true) :
    (c != '.') = true := by
  simp only [isLowerHexChar, List.mem_append, decide_eq_true_eq] at h
  rcases h with hm | hm <;> fin_cases hm <;> decide

lemma map_eq_self_of_fix {α : Type} (f : α → α) :
    ∀ l : List α, (∀ x ∈ l, f x = x) → l.map f = l
  | [], _ => rfl
  | a :: t, h => by
    simp only [List.map_cons, h a (List.mem_cons_self a t),
      map_eq_self_of_fix f t (fun x hx => h x (List.mem_cons_of_mem a hx))]

lemma filter_formatChars (p : Char → Bool) (s : List Char) (h12 : s.length = 12)
    (hall : ∀ c ∈ s, p c = true) (hdot : p '.' = false) :
    (formatChars s).filter p = s := by
  have h1 : (s.take 4).filter p = s.take 4 :=
    List.filter_eq_self.mpr fun a ha => hall a (List.take_subset _ _ ha)
  have h2 : ((s.drop 4).take 4).filter p = (s.drop 4).take 4 :=
    List.filter_eq_self.mpr fun a ha =>
      hall a (List.drop_subset _ _ (List.take_subset _ _ ha))
  have h3 : ((s.drop 8).take 4).filter p = (s.drop 8).take 4 :=
    List.filter_eq_self.mpr fun a ha =>
      hall a (List.drop_subset _ _ (List.take_subset _ _ ha))
  have h4 : (s.drop 8).take 4 = s.drop 8 :=
    List.take_of_length_le (by simp [h12])
  have h6 : (s.drop 4).take 4 ++ s.drop 8 = s.drop 4 := by
    have h5 := List.take_append_drop 4 (s.drop 4)
    rwa [List.drop_drop] at h5
  calc (formatChars s).filter p
      = s.take 4 ++ ((s.drop 4).take 4 ++ (s.drop 8).take 4) := by
        simp [formatChars, List.filter_append, List.filter_cons, hdot, h1, h2, h3]
    _ = s := by rw [h4, h6, List.take_append_drop]

lemma isCanonicalMac_formatChars (s : List Char) (h12 : s.length = 12)
    (hall : ∀ c ∈ s, isLowerHexChar c = true) :
    isCanonicalMac (String.mk (formatChars s)) = true := by
  have hlen4 : (s.take 4).length = 4 := by simp [h12]
  have ha : (formatChars s).length = 14 := by
    simp [formatChars, h12]
  have hb : (formatChars s).drop 4 = '.' :: ((s.drop 4).take 4 ++ '.' :: (s.drop 8).take 4) :=
    List.drop_left' hlen4
  have hassoc : formatChars s =
      (s.take 4 ++ '.' :: (s.drop 4).take 4) ++ ('.' :: (s.drop 8).take 4) := by
    simp [formatChars]
  have hlen9 : (s.take 4 ++ '.' :: (s.drop 4).take 4).length = 9 := by
    simp [h12]
  have hc : (formatChars s).drop 9 = '.' :: (s.drop 8).take 4 := by
    rw [hassoc]; exact List.drop_left' hlen9
  have hd : (formatChars s).filter (fun c => c != '.') = s :=
    filter_formatChars _ s h12 (fun c hc => isLowerHexChar_ne_dot (hall c hc))
      (by decide)
  simp [isCanonicalMac, ha, hb, hc, hd, h12, List.all_eq_true]
  exact hall

/-- Claim C2: an input whose hex-digit count is exactly 12 normalizes to
the canonical lowercase dotted-quad form (built from exactly its hex digits
lowercased, in order); any other hex-digit count is rejected with a
`ValueError` (modelled as `none`). -/
theorem normalize_mac_valid_and_invalid (mac : String) :
    ((mac.data.filter isHexChar).length = 12 →
      ∃ out, normalize_mac mac = some out ∧ isCanonicalMac out = true ∧
        out.data.filter isHexChar = (mac.data.filter isHexChar).map hexLower) ∧
    ((mac.data.filter isHexChar).length ≠ 12 → normalize_mac mac = none) := by
  constructor
  · intro h12
    have hlen : ((mac.data.filter isHexChar).map hexLower).length = 12 := by
      simp [h12]
    have hmem : ∀ c ∈ (mac.data.filter isHexChar).map hexLower,
        isHexChar c = true ∧ isLowerHexChar c = true := by
      intro c hc
      obtain ⟨a, ha, rfl⟩ := List.mem_map.mp hc
      have hhex : isHexChar a = true := (List.mem_filter.mp ha).2
      exact ⟨hexLower_isHexChar hhex, hexLower_isLower hhex⟩
    refine ⟨String.mk (formatChars ((mac.data.filter isHexChar).map hexLower)),
      ?_, ?_, ?_⟩
    · simp [normalize_mac, hlen]
    · exact isCanonicalMac_formatChars _ hlen (fun c hc => (hmem c hc).2)
    · exact filter_formatChars isHexChar _ hlen (fun c hc => (hmem c hc).1)
        (by decide)
  · intro hne
    simp [normalize_mac, hne]

/-- Witness for claim C2 at a separated uppercase spelling and at a
too-short spelling. -/
theorem normalize_mac_valid_and_invalid_witness :
    (∃ out, normalize_mac "AA:BB:CC:DD:EE:FF" = some out ∧ isCanonicalMac out = true ∧
      out.data.filter isHexChar =
        ("AA:BB:CC:DD:EE:FF".data.filter isHexChar).map hexLower) ∧
    normalize_mac "0:1:2" = none :=
  ⟨(normalize_mac_valid_and_invalid "AA:BB:CC:DD:EE:FF").1 (by decide),
   (normalize_mac_valid_and_invalid "0:1:2").2 (by decide)⟩

/-- Claim C10: `normalize_mac` is idempotent on every input it accepts. -/
theorem normalize_mac_idempotent (s r : String) (h : normalize_mac s = some r) :
    normalize_mac r = some r := by
  unfold normalize_mac at h
  by_cases h12 : ((s.data.filter isHexChar).map hexLower).length = 12
  · simp only [h12, if_true, Option.some.injEq] at h
    have hmem : ∀ c ∈ (s.data.filter isHexChar).map hexLower,
        isHexChar c = true ∧ hexLower c = c := by
      intro c hc
      obtain ⟨a, ha, rfl⟩ := List.mem_map.mp hc
      have hhex : isHexChar a = true := (List.mem_filter.mp ha).2
      exact ⟨hexLower_isHexChar hhex, hexLower_idem hhex⟩
    have hfilter : (formatChars ((s.data.filter isHexChar).map hexLower)).filter
        isHexChar = (s.data.filter isHexChar).map hexLower :=
      filter_formatChars isHexChar _ h12 (fun c hc => (hmem c hc).1) (by decide)
    have hmap : ((s.data.filter isHexChar).map hexLower).map hexLower =
        (s.data.filter isHexChar).map hexLower :=
      map_eq_self_of_fix _ _ (fun c hc => (hmem c hc).2)
    subst h
    simp [normalize_mac, hfilter, hmap, h12]
  · simp only [if_neg h12] at h
    exact Option.noConfusion h

/-- Witness for claim C10 at a plain 12-digit spelling. -/
theorem normalize_mac_idempotent_witness :
    normalize_mac "a0b1.c2d3.e4f5" = some "a0b1.c2d3.e4f5" :=
  normalize_mac_idempotent "a0b1c2d3e4f5" "a0b1.c2d3.e4f5" (by decide)

/-- Claim C5: the connection parameters merge defaults under the device
record (device wins), drop every key outside the allow-list, and promote
`ip` to `host` exactly when the merged record lacks `host`. -/
theorem ssh_params_allowlist (defaults device : String → Option String) (k : String) :
    (k ∉ NETMIKO_ALLOWED_KEYS → ssh_connect_params defaults device k = none) ∧
    (k ∈ NETMIKO_ALLOWED_KEYS → k ≠ "host" →
      ssh_connect_params defaults device k = merge_params defaults device k) ∧
    (ssh_connect_params defaults device "host" =
      match merge_params defaults device "host" with
      | some v => some v
      | none => merge_params defaults device "ip") ∧
    (device k ≠ none → merge_params defaults device k = device k) ∧
    (device k = none → merge_params defaults device k = defaults k) := by
  have hhost : "host" ∈ NETMIKO_ALLOWED_KEYS := by decide
  refine ⟨?_, ?_, ?_, ?_, ?_⟩
  · intro hk
    have hne : k ≠ "host" := fun he => hk (he ▸ hhost)
    simp [ssh_connect_params, sanitize_device_for_netmiko, hne, hk]
  · intro hk hne
    simp [ssh_connect_params, sanitize_device_for_netmiko, hne, hk]
  · simp only [ssh_connect_params, sanitize_device_for_netmiko, hhost, if_pos]
    cases hm : merge_params defaults device "host" with
    | some v => simp [hm]
    | none => simp [hm]
  · intro hd
    cases hdev : device k with
    | some v => simp [merge_params, hdev]
    | none => exact absurd hdev hd
  · intro hd
    simp [merge_params, hd]

/-- Device record used by the C5 witness: it carries an out-of-allow-list
inventory label and a legacy `ip` field but no `host`. -/
def deviceW : String → Option String :=
  fun k => if k = "labels" then some "rack7" else if k = "ip" then some "10.1.2.3" else none

/-- Defaults record used by the C5 witness. -/
def defaultsW : String → Option String :=
  fun k => if k = "timeout" then some "10" else none

/-- Witness for claim C5: the label is dropped and `ip` is promoted. -/
theorem ssh_params_allowlist_witness :
    ssh_connect_params defaultsW deviceW "labels" = none ∧
    ssh_connect_params defaultsW deviceW "host" = some "10.1.2.3" ∧
    ssh_connect_params defaultsW deviceW "timeout" = some "10" :=
  ⟨(ssh_params_allowlist defaultsW deviceW "labels").1 (by decide),
   ((ssh_params_allowlist defaultsW deviceW "host").2.2.1).trans (by rfl),
   ((ssh_params_allowlist defaultsW deviceW "timeout").2.1 (by decide)
      (by decide)).trans (by rfl)⟩

lemma findIfaceLines_eq_findSome (mQ : List Char) (ls : List (List Char)) :
    findIfaceLines mQ ls =
      (ls.filter (fun l => listContains mQ l)).findSome?
        (fun l => (pysplit l).reverse.find? tokenMatches) := by
  induction ls with
  | nil => rfl
  | cons l t ih =>
    by_cases hc : listContains mQ l
    · cases hf : (pysplit l).reverse.find? tokenMatches with
      | some tok => simp [findIfaceLines, hc, hf, List.filter_cons, List.findSome?]
      | none => simp [findIfaceLines, hc, hf, List.filter_cons, List.findSome?, ih]
    · simp [findIfaceLines, hc, List.filter_cons, ih]

/-- Claim C4: the MAC-table scan agrees with the spec's description —
first matching token, scanning tokens in reverse order, over the lines
containing the normalized MAC, first such line with any match winning —
and on the spec's sample line it resolves `Gi1/0/24`. -/
theorem mac_table_scan_spec :
    (∀ m out, find_interface_in_mac_table m out = spec_mac_table_scan m out) ∧
    find_interface_in_mac_table "aabb.ccdd.eeff"
      "Vlan Mac Type Ports\n 10 aabb.ccdd.eeff DYNAMIC  Gi1/0/24\nTotal: 1" =
      some "Gi1/0/24" := by
  constructor
  · intro m out
    simp [find_interface_in_mac_table, spec_mac_table_scan, findIfaceLines_eq_findSome]
  · decide

lemma tdr_dispatch_foldl (op : String → Except String TdrValue)
    (l : List String) (acc : String → Option TdrValue) (k : String) :
    (l.foldl
      (fun results iface =>
        fun j => if j = iface then some (tdr_future_result op iface) else results j)
      acc) k =
      if k ∈ l then some (tdr_future_result op k) else acc k := by
  induction l generalizing acc with
  | nil => simp
  | cons i t ih =>
    simp only [List.foldl_cons, ih]
    by_cases hk : k ∈ t
    · simp [hk, List.mem_cons]
    · by_cases hik : k = i
      · subst hik; simp [hk, List.mem_cons]
      · simp [hk, hik, List.mem_cons]

lemma mapped_switch_cons (nb : NeighborResult) (nm ht : String)
    (rest : List AccessSwitch) :
    mapped_switch nb ({ name := some nm, host := some ht } :: rest) =
      if swMatches nb { name := some nm, host := some ht } then
        .ok (some { name := some nm, host := some ht })
      else mapped_switch nb rest := by
  cases hb : truthyStr nb.cdp_ip && (some ht == nb.cdp_ip) with
  | true => simp [mapped_switch, swMatches, hb]
  | false =>
    cases hcn : nb.cdp_name with
    | none => simp [mapped_switch, swMatches, hb, hcn]
    | some cn =>
      by_cases hce : cn = ""
      · subst hce
        simp [mapped_switch, swMatches, hb, hcn]
      · by_cases hm1 : pylower nm = pylower cn
        · simp [mapped_switch, swMatches, hb, hcn, hce, hm1]
        · by_cases hm2 : pylower ht = pylower cn
          · simp [mapped_switch, swMatches, hb, hcn, hce, hm1, hm2]
          · simp [mapped_switch, swMatches, hb, hcn, hce, hm1, hm2]

lemma mapped_switch_eq_find (nb : NeighborResult) :
    ∀ sws : List AccessSwitch, (∀ sw ∈ sws, sw.name ≠ none ∧ sw.host ≠ none) →
      mapped_switch nb sws = .ok (sws.find? (swMatches nb)) := by
  intro sws h
  induction sws with
  | nil => rfl
  | cons sw rest ih =>
    have hrest := ih fun x hx => h x (List.mem_cons_of_mem sw hx)
    obtain ⟨hn, hh⟩ := h sw (List.mem_cons_self sw rest)
    obtain ⟨sname, shost⟩ := sw
    cases sname with
    | none => exact absurd rfl hn
    | some nm =>
      cases shost with
      | none => exact absurd rfl hh
      | some ht =>
        cases hm : swMatches nb { name := some nm, host := some ht } with
        | true =>
          rw [mapped_switch_cons, List.find?_cons_of_pos _ hm]
          simp [hm]
        | false =>
          rw [mapped_switch_cons, List.find?_cons_of_neg _ (by simp [hm])]
          simp [hm, hrest]

/-- Claim C6 (amended): for records carrying both `name` and `host`, the
mapping step is a single pass in inventory order, each switch tested by
address then by name, the first switch matching either criterion winning;
a later switch matching by address is not preferred over an earlier switch
matching only by name. -/
theorem mapped_switch_single_pass (nb : NeighborResult) (sws : List AccessSwitch)
    (h : ∀ sw ∈ sws, sw.name ≠ none ∧ sw.host ≠ none) :
    mapped_switch nb sws = .ok (sws.find? (swMatches nb)) :=
  mapped_switch_eq_find nb sws h

/-- Neighbor used in the C6 counterexample and witness: both an address
match and a name match exist in inventory. -/
def nbC6 : NeighborResult :=
  { cdp_name := some "sw-access-3", cdp_ip := some "10.0.0.5" }

/-- First inventory switch of the C6 scenario: matches the neighbor by
name only. -/
def swNameMatch : AccessSwitch :=
  { name := some "SW-Access-3", host := some "10.0.0.9" }

/-- Second inventory switch of the C6 scenario: matches the neighbor by
address. -/
def swAddrMatch : AccessSwitch :=
  { name := some "other", host := some "10.0.0.5" }

/-- Counterexample to claim C6 as stated: although `swAddrMatch` matches
the neighbor's management address exactly, the earlier inventory entry
`swNameMatch`, matching by name only, is returned instead — address
precedence does not override inventory order. -/
theorem mapped_switch_no_addr_precedence :
    swAddrMatch.host = nbC6.cdp_ip ∧
    swNameMatch.host ≠ nbC6.cdp_ip ∧
    mapped_switch nbC6 [swNameMatch, swAddrMatch] ≠ .ok (some swAddrMatch) ∧
    mapped_switch nbC6 [swNameMatch, swAddrMatch] = .ok (some swNameMatch) := by
  refine ⟨rfl, by decide, by decide, by decide⟩

/-- Witness for the amended claim C6 on the counterexample inventory. -/
theorem mapped_switch_single_pass_witness :
    mapped_switch nbC6 [swNameMatch, swAddrMatch] =
      .ok ([swNameMatch, swAddrMatch].find? (swMatches nbC6)) :=
  mapped_switch_single_pass nbC6 [swNameMatch, swAddrMatch] (by decide)

lemma mapped_switch_no_match_untruthy (nb : NeighborResult)
    (hname : truthyStr nb.cdp_name = false) :
    ∀ sws : List AccessSwitch, (∀ sw ∈ sws, swMatches nb sw = false) →
      mapped_switch nb sws = .ok none := by
  intro sws h
  induction sws with
  | nil => rfl
  | cons sw rest ih =>
    have hsw := h sw (List.mem_cons_self sw rest)
    have hrest := ih fun x hx => h x (List.mem_cons_of_mem sw hx)
    have hb : (truthyStr nb.cdp_ip && (sw.host == nb.cdp_ip)) = false := by
      simp only [swMatches, Bool.or_eq_false_iff] at hsw
      exact hsw.1
    cases hcn : nb.cdp_name with
    | none => simp [mapped_switch, hb, hcn, hrest]
    | some cn =>
      rw [hcn] at hname
      simp only [truthyStr, decide_eq_false_iff_not, not_not] at hname
      subst hname
      simp [mapped_switch, hb, hcn, hrest]

/-- Claim C7 (amended): when no switch matches by address or by name, the
mapping completes successfully with a null mapped switch provided the
neighbor name is absent or empty (in which case missing `name`/`host`
fields are harmless, since the name test is never entered) or every record
carries both `name` and `host`; when the neighbor name is present, a
no-match scan reaching a record with a missing field can instead raise an
`AttributeError` (see the counterexample). -/
theorem mapped_switch_no_match_ok (nb : NeighborResult) (sws : List AccessSwitch)
    (hsafe : truthyStr nb.cdp_name = false ∨
      ∀ sw ∈ sws, sw.name ≠ none ∧ sw.host ≠ none)
    (hnomatch : ∀ sw ∈ sws, swMatches nb sw = false) :
    mapped_switch nb sws = .ok none := by
  rcases hsafe with hname | hfields
  · exact mapped_switch_no_match_untruthy nb hname sws hnomatch
  · rw [mapped_switch_eq_find nb sws hfields]
    have hf : sws.find? (swMatches nb) = none :=
      List.find?_eq_none.mpr fun x hx => by simp [hnomatch x hx]
    rw [hf]

/-- Counterexample to claim C7 as stated: with the neighbor name present,
an access-switch record missing its `name` field makes the mapping step
raise (`sw.get("name").lower()` on `None`) instead of completing with a
null mapped switch. -/
theorem mapped_switch_missing_field_raises :
    mapped_switch { cdp_name := some "sw-access-3", cdp_ip := none }
      [{ name := none, host := some "10.0.0.7" }] =
      .error "AttributeError: NoneType has no attribute lower" := by decide

/-- Witness for the amended claim C7: a well-formed inventory with no
match yields a successful null mapping, and so does an inventory whose
only record is missing both fields when the neighbor name is absent. -/
theorem mapped_switch_no_match_ok_witness :
    mapped_switch { cdp_name := some "sw-access-3", cdp_ip := some "10.0.0.5" }
      [{ name := some "sw-a", host := some "10.0.0.8" }] = .ok none ∧
    mapped_switch { cdp_name := none, cdp_ip := some "10.0.0.5" }
      [{ name := none, host := none }] = .ok none :=
  ⟨mapped_switch_no_match_ok _ _ (Or.inr (by decide)) (by decide),
   mapped_switch_no_match_ok _ _ (Or.inl (by decide)) (by decide)⟩

/-- Claim C8 (amended): `find_mac_on_central_for_site` builds its cache
key from the raw input spelling (`src/app.py:117`, before normalization at
line 124), so for a fixed site two lookups share a key exactly when their
raw spellings are equal — not when they normalize alike. -/
theorem mac_cache_key_raw (site m1 m2 : String) :
    cache_key "mac" [site, m1] = cache_key "mac" [site, m2] ↔ m1 = m2 := by
  constructor
  · intro h
    have hd := congrArg String.data h
    simp only [cache_key, joinBar, String.data_append, List.append_assoc] at hd
    exact String.ext
      (List.append_cancel_left (List.append_cancel_left
        (List.append_cancel_left (List.append_cancel_left hd))))
  · intro h
    rw [h]

/-- Counterexample to claim C8 as stated: two spellings of one MAC
normalize identically yet produce distinct cache keys, and the second
lookup misses the cache populated by the first (its session-opened flag is
`true`). -/
theorem mac_cache_key_counterexample :
    normalize_mac "AA:BB:CC:DD:EE:FF" = normalize_mac "aabb.ccdd.eeff" ∧
    cache_key "mac" ["site1", "AA:BB:CC:DD:EE:FF"] ≠
      cache_key "mac" ["site1", "aabb.ccdd.eeff"] ∧
    (find_mac_on_central_for_site "site1" "AA:BB:CC:DD:EE:FF" true ""
        (fun _ => none)).map
      (fun r =>
        (find_mac_on_central_for_site "site1" "aabb.ccdd.eeff" true ""
            r.2.1).map (fun r2 => r2.2.2)) = .ok (.ok true) :=
  ⟨rfl, by decide, rfl⟩

lemma find_mac_cache_hit (site mac out : String) (siteFound : Bool)
    (cache : String → Option MacResult) (v : MacResult)
    (hhit : cache (cache_key "mac" [site, mac]) = some v) :
    find_mac_on_central_for_site site mac siteFound out cache = .ok (v, cache, false) := by
  simp [find_mac_on_central_for_site, hhit]

lemma tdr_cache_hit (host iface s rOut : String)
    (cache : String → Option TdrValue) (v : TdrValue)
    (hhit : cache (cache_key "tdr" [host, iface]) = some v) :
    tdr_single_interface host iface s rOut cache = (v, cache, false) := by
  simp [tdr_single_interface, hhit]

/-- Claim C1 (amended): the interface-listing cache stores nothing for an
empty listing, so repeating it opens a session again; but the MAC cache
stores every completed lookup — interface-not-found included — and the TDR
cache stores every produced record — error-tagged included — so repeating
those within TTL returns the stored value without opening a session. -/
theorem cache_empty_error_policy :
    (∀ host cache, cache (cache_key "iflist" [host]) = none →
      (get_interfaces_for_device host [] cache).2.1 = cache ∧
      (get_interfaces_for_device host [] cache).2.2 = true ∧
      (get_interfaces_for_device host []
        (get_interfaces_for_device host [] cache).2.1).2.2 = true) ∧
    (∀ site mac out cache r,
      cache (cache_key "mac" [site, mac]) = none →
      find_mac_on_central_for_site site mac true out cache = .ok r →
      r.2.1 (cache_key "mac" [site, mac]) = some r.1 ∧
      find_mac_on_central_for_site site mac true out r.2.1 =
        .ok (r.1, r.2.1, false)) ∧
    (∀ host iface s rOut cache,
      cache (cache_key "tdr" [host, iface]) = none →
      (tdr_single_interface host iface s rOut cache).2.1
          (cache_key "tdr" [host, iface]) =
        some (tdr_single_interface host iface s rOut cache).1 ∧
      tdr_single_interface host iface s rOut
          (tdr_single_interface host iface s rOut cache).2.1 =
        ((tdr_single_interface host iface s rOut cache).1,
         (tdr_single_interface host iface s rOut cache).2.1, false)) := by
  refine ⟨?_, ?_, ?_⟩
  · intro host cache hmiss
    refine ⟨?_, ?_, ?_⟩ <;> simp [get_interfaces_for_device, hmiss]
  · intro site mac out cache r hmiss hok
    cases hn : normalize_mac mac with
    | none =>
      rw [show find_mac_on_central_for_site site mac true out cache =
        .error "Ungültige MAC Adresse" by
          simp [find_mac_on_central_for_site, hmiss, hn]] at hok
      exact Except.noConfusion hok
    | some m =>
      rw [show find_mac_on_central_for_site site mac true out cache =
        .ok ({ mac := m, raw := out
               interface := find_interface_in_mac_table m out, site := site },
          updateCache cache (cache_key "mac" [site, mac])
            { mac := m, raw := out
              interface := find_interface_in_mac_table m out, site := site },
          true) by
          simp [find_mac_on_central_for_site, hmiss, hn]] at hok
      have hr := (Except.ok.inj hok).symm
      subst hr
      refine ⟨by simp [updateCache], ?_⟩
      exact find_mac_cache_hit site mac out true _ _ (by simp [updateCache])
  · intro host iface s rOut cache hmiss
    have hT : ∃ p, tdr_single_interface host iface s rOut cache =
        (p, updateCache cache (cache_key "tdr" [host, iface]) p, true) := by
      by_cases hc : (listContains "Invalid input".data s.data ||
          listContains "Unknown command".data s.data ||
          listContains "Command not found".data s.data) = true
      · exact ⟨TdrValue.errorVal s "No valid TDR command on device",
          by simp [tdr_single_interface, hmiss, hc]⟩
      · exact ⟨TdrValue.parsedVal (parse_tdr_output rOut),
          by simp [tdr_single_interface, hmiss, hc]⟩
    obtain ⟨p, hp⟩ := hT
    rw [hp]
    refine ⟨by simp [updateCache], ?_⟩
    exact tdr_cache_hit host iface s rOut _ _ (by simp [updateCache])

/-- Counterexample to claim C1 as stated: the TDR path caches its
error-tagged "unsupported command" record and the MAC path caches an
interface-not-found result; immediately repeating either lookup returns
the cached value without opening a session (flag `false`, and `none` for
the still-missing interface). -/
theorem cache_stores_error_counterexample :
    (tdr_single_interface "h" "Gi1/0/1" "Invalid input detected" ""
        (fun _ => none)).1 =
      TdrValue.errorVal "Invalid input detected" "No valid TDR command on device" ∧
    (tdr_single_interface "h" "Gi1/0/1" "Invalid input detected" ""
        (fun _ => none)).2.2 = true ∧
    (tdr_single_interface "h" "Gi1/0/1" "Invalid input detected" ""
        (tdr_single_interface "h" "Gi1/0/1" "Invalid input detected" ""
          (fun _ => none)).2.1).2.2 = false ∧
    (find_mac_on_central_for_site "s1" "aabb.ccdd.eeff" true "no match here"
        (fun _ => none)).map
      (fun r =>
        (find_mac_on_central_for_site "s1" "aabb.ccdd.eeff" true "no match here"
            r.2.1).map (fun r2 => (r2.1.interface, r2.2.2))) =
      .ok (.ok (none, false)) :=
  ⟨by decide, by decide, by decide, rfl⟩

/-- Inventory-listing cache used by the C1 witness (initially empty). -/
def emptyIfCache : String → Option (List IfRec) := fun _ => none

/-- MAC cache used by the C1 witness (initially empty). -/
def emptyMacCache : String → Option MacResult := fun _ => none

/-- TDR cache used by the C1 witness (initially empty). -/
def emptyTdrCache : String → Option TdrValue := fun _ => none

/-- MAC lookup record produced in the C1 witness scenario. -/
def macResW : MacResult :=
  { mac := "aabb.ccdd.eeff", raw := "", interface := none, site := "s1" }

/-- Error record produced in the C1 witness scenario. -/
def tdrErrW : TdrValue :=
  TdrValue.errorVal "Invalid input detected" "No valid TDR command on device"

/-- Witness for the amended claim C1, instantiating all three cache
behaviours at concrete inputs. -/
theorem cache_empty_error_policy_witness :
    ((get_interfaces_for_device "h1" [] emptyIfCache).2.1 = emptyIfCache ∧
     (get_interfaces_for_device "h1" [] emptyIfCache).2.2 = true ∧
     (get_interfaces_for_device "h1" []
       (get_interfaces_for_device "h1" [] emptyIfCache).2.1).2.2 = true) ∧
    ((updateCache emptyMacCache (cache_key "mac" ["s1", "aabb.ccdd.eeff"]) macResW)
        (cache_key "mac" ["s1", "aabb.ccdd.eeff"]) = some macResW ∧
     find_mac_on_central_for_site "s1" "aabb.ccdd.eeff" true ""
        (updateCache emptyMacCache (cache_key "mac" ["s1", "aabb.ccdd.eeff"]) macResW) =
       .ok (macResW,
         updateCache emptyMacCache (cache_key "mac" ["s1", "aabb.ccdd.eeff"]) macResW,
         false)) ∧
    ((tdr_single_interface "h1" "Gi1/0/1" "Invalid input detected" ""
        emptyTdrCache).2.1 (cache_key "tdr" ["h1", "Gi1/0/1"]) =
      some (tdr_single_interface "h1" "Gi1/0/1" "Invalid input detected" ""
        emptyTdrCache).1 ∧
     tdr_single_interface "h1" "Gi1/0/1" "Invalid input detected" ""
        (tdr_single_interface "h1" "Gi1/0/1" "Invalid input detected" ""
          emptyTdrCache).2.1 =
       ((tdr_single_interface "h1" "Gi1/0/1" "Invalid input detected" ""
          emptyTdrCache).1,
        (tdr_single_interface "h1" "Gi1/0/1" "Invalid input detected" ""
          emptyTdrCache).2.1, false)) :=
  ⟨cache_empty_error_policy.1 "h1" emptyIfCache rfl,
   cache_empty_error_policy.2.1 "s1" "aabb.ccdd.eeff" "" emptyMacCache
     (macResW,
      updateCache emptyMacCache (cache_key "mac" ["s1", "aabb.ccdd.eeff"]) macResW,
      true) rfl rfl,
   cache_empty_error_policy.2.2 "h1" "Gi1/0/1" "Invalid input detected" ""
     emptyTdrCache rfl⟩

/-- Claim C3 (amended): on the spec's sample text the parser yields two
entries — pair A with status `open` and pair B with status `normal`,
length null — but the first entry's length is `"2"`: the margin pattern in
`len_re` requires a contiguous plus-slash-minus, so with the sample's space
after the plus the standalone `3` fails to match and the `2` before `m` is
captured. -/
theorem parse_tdr_sample :
    parse_tdr_output "Pair A: Open 3 + /- 2 m\nPair B: Normal" =
      { raw := "Pair A: Open 3 + /- 2 m\nPair B: Normal"
        pairs := [{ pair := some "A", status := some "open", length_m := some "2"
                    details := "Open 3 + /- 2 m" },
                  { pair := some "B", status := some "normal", length_m := none
                    details := "Normal" }]
        note := none } := by
  decide

/-- Counterexample to claim C3 as stated: the two entries' lengths are not
`"3"` and null. -/
theorem parse_tdr_sample_counterexample :
    (parse_tdr_output "Pair A: Open 3 + /- 2 m\nPair B: Normal").pairs.map
      (fun p => p.length_m) ≠ [some "3", none] := by
  decide

/-- Claim C9: the dispatcher's result maps every submitted interface — and
only those — to the outcome of its own per-interface operation, a worker
failure appearing as the error-tagged record for that interface alone; the
entry of any interface is unaffected by the other interfaces' outcomes. -/
theorem tdr_dispatch_isolated (op : String → Except String TdrValue)
    (interfaces : List String) (iface : String) :
    tdr_on_switch_async op interfaces iface =
      if iface ∈ interfaces then some (tdr_future_result op iface) else none :=
  tdr_dispatch_foldl op interfaces (fun _ => none) iface
